import Mathlib

/-!
Verification of the garden-sdk notebook-metadata and container-build logic.

Shallow embedding of the Python sources:
  * `src/garden_ai/notebook_metadata.py` (current metadata store: the record
    lives in the notebook's top-level `metadata["garden_metadata"]` mapping),
  * `src/garden_ai/metadata.py` (older sentinel-cell metadata store),
  * `src/garden_ai/app/notebook.py` (base-image resolution, requirements
    reconciliation, build orchestration, session launch).

Python/JSON values are modelled by `PyJson`; Python dicts by association
lists with first-key lookup and update-or-append assignment, matching dict
insertion-order semantics for the unique-key dicts these functions build.
File I/O is modelled by passing file contents as explicit arguments, and
`nbformat` read/write of a notebook file as the identity on the `Notebook`
structure (its JSON (de)serialization is external to the logic under claim).
`typer.echo` console output is modelled explicitly only where a claim is
about the reported output; elsewhere it is dropped.
-/

/-- JSON-ish values: the subset of Python values these functions traffic in
(`None`, bools, ints, strings, lists, dicts with string keys). Floats do not
occur in any embedded computation and are outside the model. -/
inductive PyJson where
  | null
  | bool (b : Bool)
  | num (n : Int)
  | str (s : String)
  | arr (elts : List PyJson)
  | obj (entries : List (String × PyJson))

/-- Python `key in d` / `d[key]` on a dict: first (unique) matching key. -/
def alistLookup {α : Type} : List (String × α) → String → Option α
  | [], _ => none
  | (k, v) :: rest, key => if k == key then some v else alistLookup rest key

/-- Python `d[key] = v`: replace in place if the key exists, else append. -/
def alistSet {α : Type} : List (String × α) → String → α → List (String × α)
  | [], key, v => [(key, v)]
  | (k, w) :: rest, key, v =>
    if k == key then (k, v) :: rest else (k, w) :: alistSet rest key v

/-- True for the Python values pydantic accepts for a `Union[dict, list]` field. -/
def PyJson.isDictOrList : PyJson → Bool
  | .obj _ => true
  | .arr _ => true
  | _ => false

/-- `class RequirementsData(BaseModel)` from notebook_metadata.py:
`file_format: str`, `contents: Union[dict, list]`. -/
structure RequirementsData where
  file_format : String
  contents : PyJson

/-- `class NotebookMetadata(BaseModel)` from notebook_metadata.py: four
optional fields. -/
structure NotebookMetadata where
  global_notebook_doi : Option String
  notebook_image_name : Option String
  notebook_image_uri : Option String
  notebook_requirements : Option RequirementsData

/-- A `NotebookMetadata` value pydantic would have admitted: its
requirements `contents`, when present, is a dict or a list. -/
def NotebookMetadata.valid (m : NotebookMetadata) : Bool :=
  match m.notebook_requirements with
  | none => true
  | some r => r.contents.isDictOrList

/-- Serialization of an `Optional[str]` field under `model_dump`. -/
def optStrJson : Option String → PyJson
  | none => .null
  | some s => .str s

/-- `RequirementsData.model_dump()`. -/
def RequirementsData.model_dump (r : RequirementsData) : PyJson :=
  .obj [("file_format", .str r.file_format), ("contents", r.contents)]

/-- Serialization of the `Optional[RequirementsData]` field under `model_dump`. -/
def optReqJson : Option RequirementsData → PyJson
  | none => .null
  | some r => r.model_dump

/-- `NotebookMetadata.model_dump()`: field order is declaration order. -/
def NotebookMetadata.model_dump (m : NotebookMetadata) : PyJson :=
  .obj [("global_notebook_doi", optStrJson m.global_notebook_doi),
        ("notebook_image_name", optStrJson m.notebook_image_name),
        ("notebook_image_uri", optStrJson m.notebook_image_uri),
        ("notebook_requirements", optReqJson m.notebook_requirements)]

/-- pydantic v2 validation of an `Optional[str]` field: `None` or a string,
anything else is a `ValidationError`. -/
def parseOptStr : PyJson → Option (Option String)
  | .null => some none
  | .str s => some (some s)
  | _ => none

/-- pydantic v2 validation of a `RequirementsData` payload: a dict whose
`file_format` is a string and whose `contents` is a dict or a list; both
fields are required (no defaults are declared). -/
def RequirementsData.validate : PyJson → Option RequirementsData
  | .obj entries =>
    match alistLookup entries "file_format", alistLookup entries "contents" with
    | some (.str ff), some c => if c.isDictOrList then some ⟨ff, c⟩ else none
    | _, _ => none
  | _ => none

/-- pydantic v2 validation of the `Optional[RequirementsData]` field. -/
def parseOptReq : PyJson → Option (Option RequirementsData)
  | .null => some none
  | j => (RequirementsData.validate j).map some

/-- `NotebookMetadata.parse_obj` (pydantic v2 `model_validate`): requires a
dict carrying all four declared fields with admissible values; extra keys
are ignored. -/
def NotebookMetadata.parse_obj : PyJson → Option NotebookMetadata
  | .obj entries =>
    match (alistLookup entries "global_notebook_doi").bind parseOptStr,
          (alistLookup entries "notebook_image_name").bind parseOptStr,
          (alistLookup entries "notebook_image_uri").bind parseOptStr,
          (alistLookup entries "notebook_requirements").bind parseOptReq with
    | some doi, some name, some uri, some reqs => some ⟨doi, name, uri, reqs⟩
    | _, _, _, _ => none
  | _ => none

/-- One notebook cell: its source text, its `metadata.tags` list, and its
`metadata.garden_metadata` dict when present (used by the sentinel-cell
store in metadata.py). Other cell fields play no role in any claim. -/
structure NotebookCell where
  source : String
  tags : List String
  cell_garden_metadata : Option (List (String × PyJson))

/-- A parsed notebook document: the ordered cell list and the reserved
`metadata["garden_metadata"]` entry of the top-level metadata mapping
(`none` when the key is absent). -/
structure Notebook where
  cells : List NotebookCell
  garden_metadata : Option PyJson

/-- `METADATA_CELL_TAG` from notebook_metadata.py. -/
def METADATA_CELL_TAG : String := "garden_display_metadata_cell"

/-- Whether a cell's tag list carries the given tag. -/
def cellHasTag (tag : String) (c : NotebookCell) : Bool := c.tags.contains tag

/-- `NOTEBOOK_DISPLAY_METADATA_CELL` from notebook_metadata.py (the source
text of the widget cell; its content is irrelevant to the claims, only the
tag is inspected). -/
def NOTEBOOK_DISPLAY_METADATA_CELL : String :=
  "\"\"\"\nThis cell is auto-generated by Garden. Don't delete it. Do keep it as the first cell.\nYou can use this widget to edit your notebooks metadata. \nThat way the next time you run this notebook, Garden can start it with the same enviorment.\nAny changes made to your notebook's metadata using the widget will be saved when the notebook is saved.\n\nNotebook metadata fields:\n- Global DOI: The DOI of a Garden you want to add all entrypoints in this notebook too.\nIf you want to specify a differnt Garden DOI for individual entrypoints, you can provide that entrypoint's\n'garden_entrypoint' decorator with the optional 'garden_doi' argument. Providing the decorator with a DOI\nwill override the Global DOI for that specific entrypoint.\n- Base image name: The name of the garden base image you want to start this notebook with.\nTo see a list of the available Garden base images, use 'garden-ai notebook list-premade-images'\n- Requirements: Any additional requirements that should be installed in this notebook's container.\nAfter making changes to your notebook's requirements, the widget will show a 'Install new requirements' button\nthat installs the new requirements to the container, restarts the jupyter kernel and \nupdates your local requirements file if one was provided.\n\"\"\"\n\nfrom garden_ai.notebook_metadata import display_metadata_widget\ndisplay_metadata_widget()"

/-- The fresh widget cell inserted by `add_notebook_metadata` (nbformat
`new_code_cell` with the marker tag; the generated `id` is deleted). -/
def newDisplayMetadataCell : NotebookCell :=
  { source := NOTEBOOK_DISPLAY_METADATA_CELL
    tags := [METADATA_CELL_TAG]
    cell_garden_metadata := none }

/-- `list(NotebookMetadata.model_fields)` in declaration order. -/
def notebookMetadataFields : List String :=
  ["global_notebook_doi", "notebook_image_name", "notebook_image_uri",
   "notebook_requirements"]

/-- One iteration of the per-field loop of `add_notebook_metadata`:
`if field not in garden_metadata: garden_metadata[field] = None` (a fresh
dict key is appended in insertion order). -/
def ensureFieldStep (acc : List (String × PyJson)) (f : String) : List (String × PyJson) :=
  if (alistLookup acc f).isSome then acc else acc ++ [(f, .null)]

/-- The per-field loop of `add_notebook_metadata` over all declared fields. -/
def ensureMetadataFields (entries : List (String × PyJson)) : List (String × PyJson) :=
  notebookMetadataFields.foldl ensureFieldStep entries

/-- `add_notebook_metadata` from notebook_metadata.py: insert the tagged
widget cell at the top when no cell carries `METADATA_CELL_TAG`, then make
sure `metadata["garden_metadata"]` exists and carries every declared field.
Returns `none` in the case Python would raise a `TypeError`: the existing
`garden_metadata` value is not a dict, so the per-field item assignment
fails. -/
def add_notebook_metadata (nb : Notebook) : Option Notebook :=
  let found_cell := nb.cells.any (cellHasTag METADATA_CELL_TAG)
  let cells' := if found_cell then nb.cells else newDisplayMetadataCell :: nb.cells
  let gm := match nb.garden_metadata with
    | none => PyJson.obj []
    | some j => j
  match gm with
  | .obj entries =>
    some { cells := cells', garden_metadata := some (.obj (ensureMetadataFields entries)) }
  | _ => none

/-- The all-`None` record `get_notebook_metadata` builds when the metadata
is absent or unparsable. -/
def emptyNotebookMetadata : NotebookMetadata := ⟨none, none, none, none⟩

/-- `get_notebook_metadata` from notebook_metadata.py: when the reserved
key is absent, return the empty record; otherwise `parse_obj` it, and on a
`ValidationError` return the empty record as well. -/
def get_notebook_metadata (nb : Notebook) : NotebookMetadata :=
  match nb.garden_metadata with
  | none => emptyNotebookMetadata
  | some j =>
    match NotebookMetadata.parse_obj j with
    | some m => m
    | none => emptyNotebookMetadata

/-- `set_notebook_metadata` from notebook_metadata.py: overwrite the
reserved key with the `model_dump` of the record built from the arguments.
The Python signature annotates `base_image_uri: str`, but the annotation is
unchecked at runtime and the pydantic field is `Optional[str]`, so the
embedding takes an `Option String` like the other fields. -/
def set_notebook_metadata (nb : Notebook) (notebook_global_doi : Option String)
    (base_image_name : Option String) (base_image_uri : Option String)
    (requirements_data : Option RequirementsData) : Notebook :=
  { nb with
    garden_metadata :=
      some (NotebookMetadata.model_dump
        ⟨notebook_global_doi, base_image_name, base_image_uri, requirements_data⟩) }

/-- Python `line.replace("\n", "")`: remove every newline character. -/
def stripNewlines (s : String) : String := ⟨s.data.filter (fun c => c ≠ '\n')⟩

/-- Helper for `pyReadlines`: accumulate the current line (reversed). -/
def pyReadlinesAux : List Char → List Char → List String
  | [], acc => if acc.isEmpty then [] else [⟨acc.reverse⟩]
  | c :: rest, acc =>
    if c = '\n' then ⟨(c :: acc).reverse⟩ :: pyReadlinesAux rest []
    else pyReadlinesAux rest (c :: acc)

/-- Python `file.readlines()`: split into lines keeping each terminating
newline; a final fragment without a newline is kept, a terminating newline
does not create an extra empty line. (Text-mode universal-newline
translation of bare carriage returns is outside the model.) -/
def pyReadlines (s : String) : List String := pyReadlinesAux s.data []

/-- Python `str.strip()` whitespace set. -/
def isPySpace (c : Char) : Bool :=
  c = ' ' || c = '\t' || c = '\n' || c = '\r' || c = '\x0c' || c = '\x0b'

/-- Python `str.strip()`. -/
def pyStrip (s : String) : String :=
  ⟨((s.data.dropWhile isPySpace).reverse.dropWhile isPySpace).reverse⟩

/-- Split a character list at the first occurrence of `pat`: returns the
part before the occurrence and the part after it, or `none` when `pat` does
not occur. -/
def splitFirst (pat : List Char) : List Char → Option (List Char × List Char)
  | [] => if pat.isEmpty then some ([], []) else none
  | c :: rest =>
    if pat.isPrefixOf (c :: rest) then some ([], (c :: rest).drop pat.length)
    else
      match splitFirst pat rest with
      | some (pre, post) => some (c :: pre, post)
      | none => none

/-- Python `needle in hay` on strings. -/
def pyContains (needle hay : String) : Bool := (splitFirst needle.data hay.data).isSome

/-- A filesystem path, reduced to its final component (the only part any
embedded function inspects). -/
structure PyPath where
  name : String

/-- `pathlib.PurePath.suffix`: the final component's extension from its last
dot, empty when the dot is leading (hidden file) or trailing or absent. -/
def PyPath.suffix (p : PyPath) : String :=
  let cs := p.name.data
  match cs.reverse.findIdx? (fun c => c = '.') with
  | none => ""
  | some j =>
    let i := cs.length - 1 - j
    if 0 < i && i + 1 < cs.length then ⟨cs.drop i⟩ else ""

/-- Python exceptions that the embedded metadata.py code can raise. -/
inductive PyError where
  | jsonDecodeError   -- json.JSONDecodeError escaping json.loads
  | attributeError    -- .get called on a json.loads result that is not a dict
  | validationError   -- pydantic ValidationError from a model constructor
deriving DecidableEq

/-- Hexadecimal digit value, for JSON \u escapes (by character code: digits
48..57, lowercase 97..102, uppercase 65..70). -/
def hexDigitVal (c : Char) : Option Nat :=
  let n := c.toNat
  if 48 ≤ n && n ≤ 57 then some (n - 48)
  else if 97 ≤ n && n ≤ 102 then some (n - 87)
  else if 65 ≤ n && n ≤ 70 then some (n - 55)
  else none

/-- JSON whitespace. -/
def isJsonWs (c : Char) : Bool := c = ' ' || c = '\t' || c = '\n' || c = '\r'

/-- JSON string body parser (the opening quote already consumed): returns
the decoded string and the remainder after the closing quote. -/
def parseJsonStringAux : List Char → List Char → Option (String × List Char)
  | [], _ => none
  | '"' :: rest, acc => some (⟨acc.reverse⟩, rest)
  | '\\' :: '"' :: rest, acc => parseJsonStringAux rest ('"' :: acc)
  | '\\' :: '\\' :: rest, acc => parseJsonStringAux rest ('\\' :: acc)
  | '\\' :: '/' :: rest, acc => parseJsonStringAux rest ('/' :: acc)
  | '\\' :: 'n' :: rest, acc => parseJsonStringAux rest ('\n' :: acc)
  | '\\' :: 't' :: rest, acc => parseJsonStringAux rest ('\t' :: acc)
  | '\\' :: 'r' :: rest, acc => parseJsonStringAux rest ('\r' :: acc)
  | '\\' :: 'b' :: rest, acc => parseJsonStringAux rest ('\x08' :: acc)
  | '\\' :: 'f' :: rest, acc => parseJsonStringAux rest ('\x0c' :: acc)
  | '\\' :: 'u' :: h1 :: h2 :: h3 :: h4 :: rest, acc =>
    match hexDigitVal h1, hexDigitVal h2, hexDigitVal h3, hexDigitVal h4 with
    | some a, some b, some c, some d =>
      parseJsonStringAux rest (Char.ofNat (4096 * a + 256 * b + 16 * c + d) :: acc)
    | _, _, _, _ => none
  | '\\' :: _, _ => none
  | c :: rest, acc => parseJsonStringAux rest (c :: acc)

/-- JSON number parser: integers only — float literals never occur in any
value this development evaluates, and are outside the model. -/
def parseJsonNumber (cs : List Char) : Option (PyJson × List Char) :=
  let signed := match cs with
    | '-' :: r => (true, r)
    | _ => (false, cs)
  let digits := signed.2.takeWhile Char.isDigit
  let rest := signed.2.dropWhile Char.isDigit
  if digits.isEmpty then none
  else
    match rest with
    | '.' :: _ => none
    | 'e' :: _ => none
    | 'E' :: _ => none
    | _ =>
      let n : Int := digits.foldl (fun a c => a * 10 + (Int.ofNat (c.toNat - '0'.toNat))) 0
      some (.num (if signed.1 then -n else n), rest)

mutual

/-- Fueled JSON value parser (fuel bounds the nesting/element count). -/
def parseJsonValue : Nat → List Char → Option (PyJson × List Char)
  | 0, _ => none
  | Nat.succ fuel, cs =>
    match cs.dropWhile isJsonWs with
    | 'n' :: 'u' :: 'l' :: 'l' :: rest => some (.null, rest)
    | 't' :: 'r' :: 'u' :: 'e' :: rest => some (.bool true, rest)
    | 'f' :: 'a' :: 'l' :: 's' :: 'e' :: rest => some (.bool false, rest)
    | '"' :: rest => (parseJsonStringAux rest []).map (fun sr => (.str sr.1, sr.2))
    | '[' :: rest =>
      match rest.dropWhile isJsonWs with
      | ']' :: r2 => some (.arr [], r2)
      | r => parseJsonArrayItems fuel r []
    | '{' :: rest =>
      match rest.dropWhile isJsonWs with
      | '}' :: r2 => some (.obj [], r2)
      | r => parseJsonObjectItems fuel r []
    | cs' => parseJsonNumber cs'

/-- Comma-separated array elements, after the opening bracket. -/
def parseJsonArrayItems : Nat → List Char → List PyJson → Option (PyJson × List Char)
  | 0, _, _ => none
  | Nat.succ fuel, cs, acc =>
    match parseJsonValue fuel cs with
    | none => none
    | some (v, rest) =>
      match rest.dropWhile isJsonWs with
      | ',' :: r2 => parseJsonArrayItems fuel r2 (acc ++ [v])
      | ']' :: r2 => some (.arr (acc ++ [v]), r2)
      | _ => none

/-- Comma-separated object members, after the opening brace; a repeated key
replaces the earlier value in place, as in a Python dict. -/
def parseJsonObjectItems : Nat → List Char → List (String × PyJson) → Option (PyJson × List Char)
  | 0, _, _ => none
  | Nat.succ fuel, cs, acc =>
    match cs.dropWhile isJsonWs with
    | '"' :: rest =>
      match parseJsonStringAux rest [] with
      | none => none
      | some (key, r1) =>
        match r1.dropWhile isJsonWs with
        | ':' :: r2 =>
          match parseJsonValue fuel r2 with
          | none => none
          | some (v, r3) =>
            match r3.dropWhile isJsonWs with
            | ',' :: r4 => parseJsonObjectItems fuel r4 (alistSet acc key v)
            | '}' :: r4 => some (.obj (alistSet acc key v), r4)
            | _ => none
        | _ => none
    | _ => none

end

/-- Python `json.loads`: parse one JSON document with nothing but
whitespace after it. -/
def json_loads (s : String) : Option PyJson :=
  match parseJsonValue (s.length + 1) s.data with
  | some (v, rest) => if (rest.dropWhile isJsonWs).isEmpty then some v else none
  | none => none

/-- The marker tag of the sentinel-cell store in metadata.py. -/
def GARDEN_METADATA_CELL_TAG : String := "garden_metadata_cell"

/-- Group 4 of `re.match` with metadata.py's pattern
`(.*?)"""(.*?)NOTEBOOK_METADATA(.*?)=(.*?)"""(.*?)$` on the newline-free
source. Every group is lazy and the separators are literals, so the
leftmost match takes each literal at its first occurrence after the
previous one; if that cascade fails because some literal is missing after a
position, it is also missing after every later candidate position, so no
backtracking alternative matches either. The final `(.*?)$` always
matches. -/
def sentinelGroup4 (clean : List Char) : Option (List Char) :=
  match splitFirst ['"', '"', '"'] clean with
  | none => none
  | some (_, rest1) =>
    match splitFirst "NOTEBOOK_METADATA".data rest1 with
    | none => none
    | some (_, rest2) =>
      match splitFirst ['='] rest2 with
      | none => none
      | some (_, rest3) =>
        match splitFirst ['"', '"', '"'] rest3 with
        | none => none
        | some (g4, _) => some g4

/-- `get_notebook_metadata` from metadata.py: find the first cell tagged
`garden_metadata_cell`, extract the sentinel-delimited block from its
newline-stripped source, `json.loads` the stripped group, and build the
result dict (`notebook_image_uri` comes from the cell's hidden
`metadata.garden_metadata`). A missing cell or source returns the
two-field default dict with a console message; a failed sentinel match (or
an empty group) returns the default silently; but an extracted group that
is not valid JSON raises `json.JSONDecodeError`, and a JSON value that is
not a dict raises when `.get` is called on it. Returns the echoed console
lines alongside the outcome. -/
def m_get_notebook_metadata (nb : Notebook) :
    List String × Except PyError (List (String × PyJson)) :=
  let base := [("notebook_image_name", PyJson.null), ("notebook_requirements", PyJson.null)]
  match nb.cells.find? (cellHasTag GARDEN_METADATA_CELL_TAG) with
  | none => (["Unable to find garden metadata cell."], .ok base)
  | some cell =>
    if cell.source == "" then (["Unable to find garden metadata cell."], .ok base)
    else
      let hidden := cell.cell_garden_metadata.getD []
      let clean := stripNewlines cell.source
      match sentinelGroup4 clean.data with
      | none => ([], .ok base)
      | some g4 =>
        if (⟨g4⟩ : String) == "" then ([], .ok base)
        else
          match json_loads (pyStrip ⟨g4⟩) with
          | none => ([], .error .jsonDecodeError)
          | some (.obj kvs) =>
            let r1 := alistSet base "notebook_image_name"
              ((alistLookup kvs "NOTEBOOK_BASE_IMAGE_NAME").getD .null)
            let r2 := alistSet r1 "notebook_requirements"
              ((alistLookup kvs "NOTEBOOK_REQUIREMENTS").getD .null)
            let r3 := alistSet r2 "notebook_image_uri"
              ((alistLookup hidden "NOTEBOOK_BASE_IMAGE_URI").getD .null)
            ([], .ok r3)
          | some _ => ([], .error .attributeError)

/-- The fresh sentinel cell inserted by `add_notebook_metadata_cell` in
metadata.py: the rendered `NOTEBOOK_METADATA_CELL_TEMPLATE` with the
all-null metadata dict substituted, the marker tag, and the hidden
`garden_metadata` cell-metadata with a null uri. -/
def mNewMetadataCell : NotebookCell :=
  { source := "# This cell is auto-generated by Garden. Don't delete it. Do keep it as the first cell.\n# It records the base image and requirements you passed to `garden-ai notebook start`.\n# That way the next time you run this notebook Garden can start it with the same libraries.\n\n\"\"\"\nNOTEBOOK_METADATA = \x7b\n  \"NOTEBOOK_BASE_IMAGE_NAME\": null,\n  \"NOTEBOOK_REQUIREMENTS\": null\n\x7d\n\"\"\""
    tags := [GARDEN_METADATA_CELL_TAG]
    cell_garden_metadata := some [("NOTEBOOK_BASE_IMAGE_URI", PyJson.null)] }

/-- `add_notebook_metadata_cell` from metadata.py: return the notebook
unchanged when some cell already carries the `garden_metadata_cell` tag,
otherwise insert the fresh sentinel cell at the top. -/
def m_add_notebook_metadata_cell (nb : Notebook) : Notebook :=
  if nb.cells.any (cellHasTag GARDEN_METADATA_CELL_TAG) then nb
  else { nb with cells := mNewMetadataCell :: nb.cells }

/-- Number of cells carrying the sentinel-cell marker tag of metadata.py. -/
def countSentinelCells (nb : Notebook) : Nat :=
  (nb.cells.filter (cellHasTag GARDEN_METADATA_CELL_TAG)).length

/-- Python falsiness of a value standing for `None`. -/
def PyJson.isNull : PyJson → Bool
  | .null => true
  | _ => false

/-- The tail of `read_requirements_data` from metadata.py, reached whenever
the path-directed branches above it did not return: `None` for a notebook
that is not on disk, else the notebook's stored requirements. -/
def m_read_fallback (notebook_is_file : Bool) (nb : Notebook) :
    List String × Except PyError (Option PyJson) :=
  if !notebook_is_file then ([], .ok none)
  else
    match m_get_notebook_metadata nb with
    | (echoes, .error e) => (echoes, .error e)
    | (echoes, .ok d) =>
      let v := (alistLookup d "notebook_requirements").getD .null
      (echoes, .ok (if v.isNull then none else some v))

/-- `read_requirements_data` from metadata.py: a `.txt` path parses as pip
lines, a `.yml`/`.yaml` path parses as a conda document; ANY OTHER CASE —
including a path with an unsupported extension — falls through to the
notebook-is-file check and the notebook's stored requirements. The file's
text is passed explicitly; `yaml.safe_load` is an injected capability. -/
def m_read_requirements_data (requirements_path : Option PyPath) (reqFileText : String)
    (yaml_safe_load : String → PyJson) (notebook_is_file : Bool) (nb : Notebook) :
    List String × Except PyError (Option PyJson) :=
  match requirements_path with
  | some p =>
    if p.suffix == ".txt" then
      ([], .ok (some (.obj [("format", .str "pip"),
        ("contents", .arr ((pyReadlines reqFileText).map (fun l => .str (stripNewlines l))))])))
    else if p.suffix == ".yml" || p.suffix == ".yaml" then
      ([], .ok (some (.obj [("format", .str "conda"), ("contents", yaml_safe_load reqFileText)])))
    else m_read_fallback notebook_is_file nb
  | none => m_read_fallback notebook_is_file nb

/-- `read_requirements_data` from notebook_metadata.py: takes only the
requirements path; a `.txt` file parses as one entry per line with
newlines stripped, a `.yml`/`.yaml` file parses as a conda document
(failing pydantic validation when `yaml.safe_load` yields neither a dict
nor a list), and any other extension echoes an error message and returns
no value. Returns the echoed console lines alongside the outcome. -/
def read_requirements_data (requirements_path : PyPath) (reqFileText : String)
    (yaml_safe_load : String → PyJson) :
    List String × Except PyError (Option RequirementsData) :=
  if requirements_path.suffix == ".txt" then
    ([], .ok (some ⟨"pip", .arr ((pyReadlines reqFileText).map (fun l => .str (stripNewlines l)))⟩))
  else if requirements_path.suffix == ".yml" || requirements_path.suffix == ".yaml" then
    let contents := yaml_safe_load reqFileText
    if contents.isDictOrList then ([], .ok (some ⟨"conda", contents⟩))
    else ([], .error .validationError)
  else (["Invalid requirements file format."], .ok none)

/-- Python truthiness of an optional CLI string: absent and empty are both
falsy, as in `if base_image_name:` over typer-provided options. -/
def pyTruthyStr : Option String → Bool
  | none => false
  | some s => !(s == "")

/-- The `typer.Exit(1)` outcomes of `_get_base_image_uri` in
app/notebook.py, tagged by the error message printed before exiting. -/
inductive ResolveError where
  | conflictingOptions    -- both --base-image and --custom-image given
  | unknownBaseImage      -- --base-image not among the premade images
  | noBaseImageSpecified  -- no name, no custom uri, no recorded uri
deriving DecidableEq

/-- `_get_base_image_uri` from app/notebook.py. The premade-image catalog
(`GardenConstants.PREMADE_IMAGES`, defined outside the staged sources) is
passed as an explicit association list; `last_used_image_uri` stands for
`_get_notebook_metadata(notebook_path).get("notebook_image_uri")` when a
notebook path was given and `None` otherwise. Order of checks follows the
source: the conflict check, then the nothing-given check, then custom,
then name against the catalog, then the recorded uri. -/
def get_base_image_uri (premade_images : List (String × String))
    (base_image_name custom_image_uri last_used_image_uri : Option String) :
    Except ResolveError String :=
  if pyTruthyStr base_image_name && pyTruthyStr custom_image_uri then
    .error .conflictingOptions
  else if !(pyTruthyStr base_image_name || pyTruthyStr custom_image_uri
      || pyTruthyStr last_used_image_uri) then
    .error .noBaseImageSpecified
  else if pyTruthyStr custom_image_uri then
    .ok (custom_image_uri.getD "")
  else if pyTruthyStr base_image_name then
    match alistLookup premade_images (base_image_name.getD "") with
    | some uri => .ok uri
    | none => .error .unknownBaseImage
  else
    .ok (last_used_image_uri.getD "")

/-- `_read_requirements_data` from app/notebook.py: `None` outright when the
notebook file is not on disk; otherwise a `.txt`/`.yml`/`.yaml` path parses
as in the other readers, and any other case (no path, or an unsupported
extension) falls back to the notebook's stored requirements.
`notebook_requirements_from_metadata` stands for
`_get_notebook_metadata(notebook_path).get("notebook_requirements")`, whose
exec-based extraction of the tagged cell is dynamic code execution outside
this embedding. -/
def app_read_requirements_data (requirements_path : Option PyPath) (reqFileText : String)
    (yaml_safe_load : String → PyJson) (notebook_is_file : Bool)
    (notebook_requirements_from_metadata : Option PyJson) : Option PyJson :=
  if !notebook_is_file then none
  else
    match requirements_path with
    | some p =>
      if p.suffix == ".txt" then
        some (.obj [("format", .str "pip"),
          ("contents", .arr ((pyReadlines reqFileText).map (fun l => .str (stripNewlines l))))])
      else if p.suffix == ".yml" || p.suffix == ".yaml" then
        some (.obj [("format", .str "conda"), ("contents", yaml_safe_load reqFileText)])
      else notebook_requirements_from_metadata
    | none => notebook_requirements_from_metadata

/-- The docker build exceptions handled by `DockerClientSession` in
app/notebook.py, with the message and captured build log they carry.
Modelled from the spec: `containers.py` is not among the staged sources;
per the spec's build-stage contract, the dependency-layer stage
(`build_image_with_dependencies`) signals failure with the pre-build
exception type and the notebook-bake stage (`build_notebook_session_image`)
with the plain build-failure type. -/
inductive DockerBuildError where
  | preBuildFailure (msg : String) (build_log : List String)
  | buildFailure (msg : String) (build_log : List String)

/-- The build log carried by a docker build exception. -/
def DockerBuildError.build_log : DockerBuildError → List String
  | .preBuildFailure _ log => log
  | .buildFailure _ log => log

/-- The message carried by a docker build exception. -/
def DockerBuildError.msg : DockerBuildError → String
  | .preBuildFailure m _ => m
  | .buildFailure m _ => m

/-- `e.build_log[-1] if len(e.build_log) > 0 else ""`. -/
def lastLogLine (log : List String) : String := log.getLast?.getD ""

/-- The classification messages of `handle_docker_build_failure`. -/
def PREBUILD_FAILURE_MSG : String :=
  "Garden could not set up your base Docker image. If you supplied a requirements file, check that it's formatted correctly.\n"

/-- Notebook-bake failure message when the last log line shows a traceback. -/
def NOTEBOOK_CODE_FAILURE_MSG : String :=
  "Garden could not build a Docker image from your notebook. This is likely because of a bug in your notebook code.\nThis is where the error occurred: "

/-- Notebook-bake failure message without a traceback in the last log line. -/
def NOTEBOOK_NONCODE_FAILURE_MSG : String :=
  "Garden could not build a Docker image from your notebook. It looks like it is not an error in your notebook code.\n"

/-- `DockerClientSession.handle_docker_build_failure` from app/notebook.py:
echo the build log when not verbose, print the fatal-error header, then the
message of the branch the exception's type selects; the caller then raises
`typer.Exit(1)`. Returns the console lines in print order. -/
def handle_docker_build_failure (verbose : Bool) (e : DockerBuildError) : List String :=
  let echoed := if !verbose then e.build_log else []
  let header := "Fatal Docker build error: " ++ e.msg ++ "\nAbove is the full build log.\n"
  let classified :=
    match e with
    | .preBuildFailure _ _ => [PREBUILD_FAILURE_MSG]
    | .buildFailure _ log =>
      if pyContains "Traceback" (lastLogLine log) then
        [NOTEBOOK_CODE_FAILURE_MSG, lastLogLine log]
      else
        [NOTEBOOK_NONCODE_FAILURE_MSG]
  echoed ++ [header] ++ classified

/-- The user-facing failure classification, i.e. which branch of
`handle_docker_build_failure` reports the failure. -/
inductive FailureClass where
  | dependencyBuildFailure   -- DockerPreBuildFailure: base image / requirements framing
  | notebookCodeFailure      -- DockerBuildFailure with a traceback in the last log line
  | notebookNonCodeFailure   -- DockerBuildFailure without one
  | pushFailure              -- an error while pushing the built image
deriving DecidableEq

/-- The type-dispatch of `handle_docker_build_failure`, as a classification. -/
def classify_build_failure : DockerBuildError → FailureClass
  | .preBuildFailure _ _ => .dependencyBuildFailure
  | .buildFailure _ log =>
    if pyContains "Traceback" (lastLogLine log) then .notebookCodeFailure
    else .notebookNonCodeFailure

/-- The stages of the publish flow's image pipeline, in program order. -/
inductive BuildStage where
  | buildDependencyLayer   -- build_image_with_dependencies
  | bakeNotebookLayer      -- build_notebook_session_image
  | pushImage              -- push_image_to_public_repo
deriving DecidableEq

/-- The build-and-push section of `publish` in app/notebook.py, with the
three docker stages as injected capabilities returning an image id (or a
registry uri) or their failure. The code calls them in sequence inside the
`DockerClientSession` context manager: an exception from a stage propagates
at once to the session's exit handler, which classifies it and raises
`typer.Exit(1)`, so no later stage call is reached. Returns the list of
stages that were actually invoked together with the outcome: the pushed
image uri, or the classification of the failure that aborted the run. -/
def publish_build_section (deps_result : Except DockerBuildError String)
    (bake : String → Except DockerBuildError String)
    (push_to_repo : String → Except String String) :
    List BuildStage × Except FailureClass String :=
  match deps_result with
  | .error e => ([.buildDependencyLayer], .error (classify_build_failure e))
  | .ok local_base_image_id =>
    match bake local_base_image_id with
    | .error e =>
      ([.buildDependencyLayer, .bakeNotebookLayer], .error (classify_build_failure e))
    | .ok image =>
      match push_to_repo image with
      | .error _ =>
        ([.buildDependencyLayer, .bakeNotebookLayer, .pushImage], .error .pushFailure)
      | .ok full_image_uri =>
        ([.buildDependencyLayer, .bakeNotebookLayer, .pushImage], .ok full_image_uri)

/-- The observable state of one `start` invocation: the notebook file on
disk and the console transcript. -/
structure CliWorld where
  notebook : Notebook
  console : List String

/-- The docker section of `start` in app/notebook.py, entered with the
notebook state as `_set_notebook_metadata` left it. Inside a temporary
directory the requirements data (if any) is written to a throwaway
requirements file, then `build_image_with_dependencies` runs — it receives
only the docker client, the base image uri and the temporary requirements
path, never the notebook file. On failure the session's exit handler
prints the log and classification (verbose is True in `start`, so the log
lines were already streamed) and raises `typer.Exit(1)`; nothing in that
path writes the notebook. On success the image id flows on to the
container start. -/
def start_docker_section (w : CliWorld)
    (deps_result : Except DockerBuildError String) : CliWorld × Except Nat String :=
  match deps_result with
  | .error e =>
    ({ w with console := w.console ++ handle_docker_build_failure true e }, .error 1)
  | .ok local_base_image_id => (w, .ok local_base_image_id)

/-- How the one interactive interrupt of the session manifests: on POSIX
the registered SIGINT handler runs while `container.wait()` blocks; on
Windows the wait call raises `KeyboardInterrupt` into the `except` branch
(the comment in the source marks that branch as the windows Ctrl-C path). -/
inductive InterruptMode where
  | posixSignal
  | windowsKeyboardInterrupt
deriving DecidableEq

/-- What the blocking wait reports once the container was told to stop:
a normal exit, or `docker.errors.NotFound` because the container is
already gone (the race the `except NotFound: pass` branch absorbs). -/
inductive WaitAfterStop where
  | waitReturns
  | waitRaisesNotFound
deriving DecidableEq

/-- The container-side trace of one session teardown: how many times
`container.stop()` was called, what was echoed, and whether the launcher
reached its normal final line rather than letting an exception escape. -/
structure SessionTrace where
  stop_calls : Nat
  console : List String
  normal_exit : Bool
deriving DecidableEq

/-- One echoed line appended to a trace. -/
def traceEcho (line : String) (t : SessionTrace) : SessionTrace :=
  { t with console := t.console ++ [line] }

/-- One `container.stop()` call recorded on a trace. -/
def traceStop (t : SessionTrace) : SessionTrace :=
  { t with stop_calls := t.stop_calls + 1 }

/-- The handler installed by `_register_container_sigint_handler`: echo
"Stopping notebook..." and stop the container, then return. -/
def sigint_handler (t : SessionTrace) : SessionTrace :=
  traceStop (traceEcho "Stopping notebook..." t)

/-- Delivery of `n` SIGINTs during the blocking wait: the registered
handler runs once per delivery and the wait resumes. -/
def deliverSigints : Nat → SessionTrace → SessionTrace
  | 0, t => t
  | Nat.succ n, t => deliverSigints n (sigint_handler t)

/-- The final blocking section of `start` in app/notebook.py
(`container.reload(); container.wait()` inside try/except, then the
closing echo): any SIGINTs delivered during the wait run the registered
handler; then the wait either returns (the container exited after the
handler's stop), raises `NotFound` (absorbed by `except ... pass`), or —
on Windows — raises `KeyboardInterrupt`, whose `except` branch echoes and
stops the container itself. All three paths fall through to the final
"Notebook has stopped." echo and a normal return. -/
def container_wait_block (mode : InterruptMode) (sigints_during_wait : Nat)
    (after : WaitAfterStop) (t : SessionTrace) : SessionTrace :=
  match mode with
  | .posixSignal =>
    let t1 := deliverSigints sigints_during_wait t
    match after with
    | .waitReturns => traceEcho "Notebook has stopped." { t1 with normal_exit := true }
    | .waitRaisesNotFound => traceEcho "Notebook has stopped." { t1 with normal_exit := true }
  | .windowsKeyboardInterrupt =>
    let t1 := deliverSigints sigints_during_wait t
    let t2 := traceStop (traceEcho "Stopping notebook ..." t1)
    traceEcho "Notebook has stopped." { t2 with normal_exit := true }

/-- A concrete stand-in for the injected `yaml.safe_load` capability in
closed statements whose yaml branch is never taken. -/
def yamlNull : String → PyJson := fun _ => PyJson.null

/-- Concatenation of parsed lines back into the original character stream. -/
def concatLines (ls : List String) : List Char :=
  ls.foldr (fun s acc => s.data ++ acc) []

/-- A tagged sentinel cell whose block is intact (the `"""` fences and the
`NOTEBOOK_METADATA =` header are there) but whose payload is not JSON. -/
def c4_damaged_cell : NotebookCell :=
  { source := "\"\"\"\nNOTEBOOK_METADATA = \x7b\n\"\"\""
    tags := ["garden_metadata_cell"]
    cell_garden_metadata := some [("NOTEBOOK_BASE_IMAGE_URI", .str "an-image-uri")] }

/-- A notebook whose metadata block exists but cannot be parsed, for the
sentinel-cell store. -/
def c4_damaged_notebook : Notebook :=
  { cells := [c4_damaged_cell], garden_metadata := none }

/-- A notebook whose `metadata["garden_metadata"]` entry exists but fails
pydantic validation (it is not even a dict), for the notebook_metadata.py
store. -/
def c4_nm_damaged_notebook : Notebook :=
  { cells := [], garden_metadata := some (.str "damaged") }

/-- The requirements value stored in `c9_notebook`. -/
def c9_stored_requirements : PyJson :=
  .obj [("file_format", .str "pip"), ("contents", .arr [.str "pandas"])]

/-- An intact sentinel cell recording pip requirements. -/
def c9_metadata_cell : NotebookCell :=
  { source := "\"\"\"\nNOTEBOOK_METADATA = \x7b\"NOTEBOOK_BASE_IMAGE_NAME\": \"3.9-base\", \"NOTEBOOK_REQUIREMENTS\": \x7b\"file_format\": \"pip\", \"contents\": [\"pandas\"]\x7d\x7d\n\"\"\""
    tags := ["garden_metadata_cell"]
    cell_garden_metadata := some [("NOTEBOOK_BASE_IMAGE_URI", .str "an-image-uri")] }

/-- An existing notebook with stored requirements in its sentinel cell. -/
def c9_notebook : Notebook :=
  { cells := [c9_metadata_cell], garden_metadata := none }

/-- Number of cells carrying the widget-cell marker tag ("marker locations"
in the spec's sense for the notebook_metadata.py store). -/
def countMetadataCells (nb : Notebook) : Nat :=
  (nb.cells.filter (cellHasTag METADATA_CELL_TAG)).length

/-- Claim C1: for every valid NotebookMetadata record r and every parseable
notebook, writing r into the notebook with set_notebook_metadata and then
reading it back with get_notebook_metadata yields a record equal to r
field-for-field. -/
theorem claim_C1_metadata_roundtrip (nb : Notebook) (m : NotebookMetadata)
    (h : m.valid = true) :
    get_notebook_metadata
      (set_notebook_metadata nb m.global_notebook_doi m.notebook_image_name
        m.notebook_image_uri m.notebook_requirements) = m := by
  obtain ⟨doi, name, uri, reqs⟩ := m
  cases reqs with
  | none =>
    cases doi <;> cases name <;> cases uri <;> rfl
  | some r =>
    obtain ⟨ff, c⟩ := r
    have h' : c.isDictOrList = true := h
    cases doi <;> cases name <;> cases uri <;> cases c <;>
      first
      | rfl
      | exact Bool.noConfusion h'

/-- Witness for C1 at a concrete record and notebook. -/
theorem claim_C1_metadata_roundtrip_witness :
    NotebookMetadata.valid
      ⟨some "10.23677/testdoi", some "3.9-base", some "docker.io/gardenai/base:python-3.9",
        some ⟨"pip", .arr [.str "scikit-learn==1.2.2", .str "pandas"]⟩⟩ = true
    ∧ get_notebook_metadata
        (set_notebook_metadata ⟨[], none⟩ (some "10.23677/testdoi") (some "3.9-base")
          (some "docker.io/gardenai/base:python-3.9")
          (some ⟨"pip", .arr [.str "scikit-learn==1.2.2", .str "pandas"]⟩))
      = ⟨some "10.23677/testdoi", some "3.9-base", some "docker.io/gardenai/base:python-3.9",
          some ⟨"pip", .arr [.str "scikit-learn==1.2.2", .str "pandas"]⟩⟩ :=
  ⟨by decide,
   claim_C1_metadata_roundtrip ⟨[], none⟩
     ⟨some "10.23677/testdoi", some "3.9-base", some "docker.io/gardenai/base:python-3.9",
       some ⟨"pip", .arr [.str "scikit-learn==1.2.2", .str "pandas"]⟩⟩ (by decide)⟩

/-- Looking a key up in an appended association list does not change when
the key is already found on the left. -/
theorem alistLookup_append_left {α : Type} (xs ys : List (String × α)) (k : String)
    (h : (alistLookup xs k).isSome) :
    alistLookup (xs ++ ys) k = alistLookup xs k := by
  induction xs with
  | nil => simp [alistLookup] at h
  | cons p rest ih =>
    obtain ⟨k', v⟩ := p
    by_cases hk : (k' == k) = true
    · simp [alistLookup, hk]
    · simp only [alistLookup, hk] at h
      simp only [List.cons_append, alistLookup, hk, if_false]
      exact ih h

/-- Appending a fresh binding makes its key found. -/
theorem alistLookup_append_fresh {α : Type} (xs : List (String × α)) (k : String) (v : α)
    (h : alistLookup xs k = none) :
    alistLookup (xs ++ [(k, v)]) k = some v := by
  induction xs with
  | nil => simp [alistLookup]
  | cons p rest ih =>
    obtain ⟨k', w⟩ := p
    by_cases hk : (k' == k) = true
    · simp [alistLookup, hk] at h
    · simp only [alistLookup, hk] at h
      simp only [List.cons_append, alistLookup, hk, if_false]
      exact ih h

/-- After one field-ensuring step, the treated field is present. -/
theorem ensureFieldStep_isSome (acc : List (String × PyJson)) (f : String) :
    (alistLookup (ensureFieldStep acc f) f).isSome := by
  unfold ensureFieldStep
  by_cases h : (alistLookup acc f).isSome
  · rw [if_pos h]; exact h
  · rw [if_neg h, alistLookup_append_fresh acc f PyJson.null
      (Option.not_isSome_iff_eq_none.mp h)]
    rfl

/-- A field that is present stays present through a field-ensuring step. -/
theorem ensureFieldStep_preserves (acc : List (String × PyJson)) (f g : String)
    (h : (alistLookup acc g).isSome) :
    (alistLookup (ensureFieldStep acc f) g).isSome := by
  unfold ensureFieldStep
  by_cases hf : (alistLookup acc f).isSome
  · simpa [hf]
  · rw [if_neg hf, alistLookup_append_left acc [(f, PyJson.null)] g h]
    exact h

/-- The field-ensuring step is the identity on an already-present field. -/
theorem ensureFieldStep_of_isSome (acc : List (String × PyJson)) (f : String)
    (h : (alistLookup acc f).isSome) : ensureFieldStep acc f = acc :=
  if_pos h

/-- Running the per-field loop twice equals running it once: the first run
leaves every declared field present, so the second run changes nothing. -/
theorem ensureMetadataFields_idem (es : List (String × PyJson)) :
    ensureMetadataFields (ensureMetadataFields es) = ensureMetadataFields es := by
  simp only [ensureMetadataFields, notebookMetadataFields, List.foldl_cons, List.foldl_nil]
  have s1 : (alistLookup (ensureFieldStep es "global_notebook_doi") "global_notebook_doi").isSome :=
    ensureFieldStep_isSome es "global_notebook_doi"
  have s1b := ensureFieldStep_preserves _ "notebook_image_name" _ s1
  have s1c := ensureFieldStep_preserves _ "notebook_image_uri" _ s1b
  have s1d := ensureFieldStep_preserves _ "notebook_requirements" _ s1c
  have s2 := ensureFieldStep_isSome (ensureFieldStep es "global_notebook_doi") "notebook_image_name"
  have s2c := ensureFieldStep_preserves _ "notebook_image_uri" _ s2
  have s2d := ensureFieldStep_preserves _ "notebook_requirements" _ s2c
  have s3 := ensureFieldStep_isSome
    (ensureFieldStep (ensureFieldStep es "global_notebook_doi") "notebook_image_name")
    "notebook_image_uri"
  have s3d := ensureFieldStep_preserves _ "notebook_requirements" _ s3
  have s4 := ensureFieldStep_isSome
    (ensureFieldStep (ensureFieldStep (ensureFieldStep es "global_notebook_doi")
      "notebook_image_name") "notebook_image_uri")
    "notebook_requirements"
  rw [ensureFieldStep_of_isSome _ _ s1d, ensureFieldStep_of_isSome _ _ s2d,
    ensureFieldStep_of_isSome _ _ s3d, ensureFieldStep_of_isSome _ _ s4]

/-- A cell list with no cell carrying a tag filters to an empty tagged list. -/
theorem countTagged_zero_of_any_false (tag : String) (cells : List NotebookCell)
    (h : cells.any (cellHasTag tag) = false) :
    (cells.filter (cellHasTag tag)).length = 0 := by
  induction cells with
  | nil => rfl
  | cons c rest ih =>
    simp only [List.any_cons, Bool.or_eq_false_iff] at h
    simp only [List.filter_cons, h.1, if_false]
    exact ih h.2

/-- Claim C5: the metadata-cell creation operation is idempotent, for both
stores. For notebook_metadata.py's add_notebook_metadata: applied to a
notebook with no marker-tagged cell it inserts exactly one marker cell as
the very first cell, and applying it any number of further times (or
writing the same record twice with set_notebook_metadata) leaves a notebook
with exactly one marker location, never two. For metadata.py's
add_notebook_metadata_cell the same holds for its sentinel cell. -/
theorem claim_C5_metadata_cell_idempotent (nb : Notebook) (es : List (String × PyJson))
    (h0 : nb.cells.any (cellHasTag METADATA_CELL_TAG) = false)
    (hgm : nb.garden_metadata = none ∨ nb.garden_metadata = some (.obj es))
    (h0m : nb.cells.any (cellHasTag GARDEN_METADATA_CELL_TAG) = false) :
    (∃ nb₁, add_notebook_metadata nb = some nb₁
      ∧ nb₁.cells = newDisplayMetadataCell :: nb.cells
      ∧ countMetadataCells nb₁ = 1
      ∧ add_notebook_metadata nb₁ = some nb₁
      ∧ ∀ doi name uri req,
          countMetadataCells (set_notebook_metadata nb₁ doi name uri req) = 1)
    ∧ (m_add_notebook_metadata_cell nb).cells = mNewMetadataCell :: nb.cells
    ∧ countSentinelCells (m_add_notebook_metadata_cell nb) = 1
    ∧ m_add_notebook_metadata_cell (m_add_notebook_metadata_cell nb)
      = m_add_notebook_metadata_cell nb := by
  have hrest := countTagged_zero_of_any_false METADATA_CELL_TAG nb.cells h0
  have hrestm := countTagged_zero_of_any_false GARDEN_METADATA_CELL_TAG nb.cells h0m
  have hnew : cellHasTag METADATA_CELL_TAG newDisplayMetadataCell = true := by decide
  have hnewm : cellHasTag GARDEN_METADATA_CELL_TAG mNewMetadataCell = true := by decide
  have hmadd : m_add_notebook_metadata_cell nb
      = { nb with cells := mNewMetadataCell :: nb.cells } := by
    simp [m_add_notebook_metadata_cell, h0m]
  have hmanym : (mNewMetadataCell :: nb.cells).any (cellHasTag GARDEN_METADATA_CELL_TAG) = true := by
    simp [List.any_cons, hnewm]
  refine ⟨?_, ?_, ?_, ?_⟩
  case _ =>
    obtain hg | hg := hgm
    case _ =>
      refine ⟨⟨newDisplayMetadataCell :: nb.cells, some (.obj (ensureMetadataFields []))⟩, ?_, rfl, ?_, ?_, ?_⟩
      · simp [add_notebook_metadata, h0, hg]
      · simp [countMetadataCells, List.filter_cons, hnew, hrest]
      · have hany : (newDisplayMetadataCell :: nb.cells).any (cellHasTag METADATA_CELL_TAG) = true := by
          simp [List.any_cons, hnew]
        simp [add_notebook_metadata, hany, ensureMetadataFields_idem]
      · intro doi name uri req
        simp [set_notebook_metadata, countMetadataCells, List.filter_cons, hnew, hrest]
    case _ =>
      refine ⟨⟨newDisplayMetadataCell :: nb.cells, some (.obj (ensureMetadataFields es))⟩, ?_, rfl, ?_, ?_, ?_⟩
      · simp [add_notebook_metadata, h0, hg]
      · simp [countMetadataCells, List.filter_cons, hnew, hrest]
      · have hany : (newDisplayMetadataCell :: nb.cells).any (cellHasTag METADATA_CELL_TAG) = true := by
          simp [List.any_cons, hnew]
        simp [add_notebook_metadata, hany, ensureMetadataFields_idem]
      · intro doi name uri req
        simp [set_notebook_metadata, countMetadataCells, List.filter_cons, hnew, hrest]
  case _ => rw [hmadd]
  case _ =>
    rw [hmadd]
    simp [countSentinelCells, List.filter_cons, hnewm, hrestm]
  case _ =>
    rw [hmadd]
    simp [m_add_notebook_metadata_cell, hmanym]

/-- Witness for C5 at a concrete empty notebook. -/
theorem claim_C5_metadata_cell_idempotent_witness :
    (Notebook.mk [] none).cells.any (cellHasTag METADATA_CELL_TAG) = false
    ∧ ((∃ nb₁, add_notebook_metadata ⟨[], none⟩ = some nb₁
        ∧ nb₁.cells = newDisplayMetadataCell :: []
        ∧ countMetadataCells nb₁ = 1
        ∧ add_notebook_metadata nb₁ = some nb₁
        ∧ ∀ doi name uri req,
            countMetadataCells (set_notebook_metadata nb₁ doi name uri req) = 1)
      ∧ (m_add_notebook_metadata_cell ⟨[], none⟩).cells = mNewMetadataCell :: []
      ∧ countSentinelCells (m_add_notebook_metadata_cell ⟨[], none⟩) = 1
      ∧ m_add_notebook_metadata_cell (m_add_notebook_metadata_cell ⟨[], none⟩)
        = m_add_notebook_metadata_cell ⟨[], none⟩) :=
  ⟨rfl, claim_C5_metadata_cell_idempotent ⟨[], none⟩ [] rfl (Or.inl rfl) rfl⟩

/-- Claim C2: base-image resolution satisfies its full precedence contract:
both a premade-image name and a custom uri given is a ConflictingOptions
error; otherwise a given custom uri is returned; otherwise a given name is
looked up in the premade-image catalog, with UnknownBaseImage when absent;
otherwise the previously recorded uri is returned when present; and with
none of the three inputs present the result is NoBaseImageSpecified.
"Given" is Python truthiness: a present, non-empty string. -/
theorem claim_C2_base_image_resolution (cat : List (String × String))
    (name custom last : Option String) :
    (pyTruthyStr name = true → pyTruthyStr custom = true →
      get_base_image_uri cat name custom last = .error .conflictingOptions)
    ∧ (pyTruthyStr name = false → pyTruthyStr custom = true → ∀ c, custom = some c →
      get_base_image_uri cat name custom last = .ok c)
    ∧ (pyTruthyStr name = true → pyTruthyStr custom = false → ∀ n, name = some n →
      (∀ uri, alistLookup cat n = some uri →
        get_base_image_uri cat name custom last = .ok uri)
      ∧ (alistLookup cat n = none →
        get_base_image_uri cat name custom last = .error .unknownBaseImage))
    ∧ (pyTruthyStr name = false → pyTruthyStr custom = false →
      pyTruthyStr last = true → ∀ l, last = some l →
      get_base_image_uri cat name custom last = .ok l)
    ∧ (pyTruthyStr name = false → pyTruthyStr custom = false →
      pyTruthyStr last = false →
      get_base_image_uri cat name custom last = .error .noBaseImageSpecified) := by
  refine ⟨?_, ?_, ?_, ?_, ?_⟩
  · intro hn hc
    simp [get_base_image_uri, hn, hc]
  · intro hn hc c hcs
    subst hcs
    simp [get_base_image_uri, hn, hc]
  · intro hn hc n hns
    subst hns
    constructor
    · intro uri hl
      simp [get_base_image_uri, hn, hc, hl]
    · intro hl
      simp [get_base_image_uri, hn, hc, hl]
  · intro hn hc hl l hls
    subst hls
    simp [get_base_image_uri, hn, hc, hl]
  · intro hn hc hl
    simp [get_base_image_uri, hn, hc, hl]

/-- Claim C3: if the dependency-layer build stage fails, the notebook-bake
stage is never invoked and the failure is classified as a dependency-build
failure, distinct from either notebook-bake classification; and no later
stage is ever attempted after a failed stage (bake only runs after the
dependency stage succeeded, push only after bake succeeded). -/
theorem claim_C3_pipeline_short_circuit
    (bake : String → Except DockerBuildError String)
    (push_to_repo : String → Except String String)
    (msg : String) (log : List String) :
    (publish_build_section (.error (.preBuildFailure msg log)) bake push_to_repo
      = ([.buildDependencyLayer], .error .dependencyBuildFailure))
    ∧ (FailureClass.dependencyBuildFailure ≠ FailureClass.notebookCodeFailure
      ∧ FailureClass.dependencyBuildFailure ≠ FailureClass.notebookNonCodeFailure)
    ∧ (∀ deps_result,
        BuildStage.bakeNotebookLayer ∈ (publish_build_section deps_result bake push_to_repo).1 →
        ∃ image_id, deps_result = .ok image_id)
    ∧ (∀ deps_result,
        BuildStage.pushImage ∈ (publish_build_section deps_result bake push_to_repo).1 →
        ∃ image_id baked, deps_result = .ok image_id ∧ bake image_id = .ok baked) := by
  refine ⟨rfl, by decide, ?_, ?_⟩
  · intro deps_result h
    cases deps_result with
    | error e => simp [publish_build_section] at h
    | ok image_id => exact ⟨image_id, rfl⟩
  · intro deps_result h
    cases deps_result with
    | error e => simp [publish_build_section] at h
    | ok image_id =>
      cases hb : bake image_id with
      | error e => simp [publish_build_section, hb] at h
      | ok baked => exact ⟨image_id, baked, rfl, hb⟩

/-- Claim C4 (evaluating the code at the failing input): the sentinel-cell
reader of metadata.py raises a JSON decode error on a notebook whose
metadata block exists (fences and header intact) but cannot be parsed,
instead of returning the absent-metadata default; while the
notebook_metadata.py reader, on a notebook whose garden_metadata entry
exists but fails validation, does return the all-None record, identical to
a notebook with no metadata at all. -/
theorem claim_C4_corrupt_metadata_divergence :
    (m_get_notebook_metadata c4_damaged_notebook).2 = .error .jsonDecodeError
    ∧ get_notebook_metadata c4_nm_damaged_notebook = emptyNotebookMetadata
    ∧ get_notebook_metadata c4_nm_damaged_notebook
      = get_notebook_metadata { c4_nm_damaged_notebook with garden_metadata := none } :=
  ⟨rfl, rfl, rfl⟩

/-- Claim C6: when the dependency build of the start flow fails after the
notebook's metadata record has been written, the failure path only prints
the captured log and classification and exits with code 1: the notebook
on disk — and hence every field of its persisted metadata record — is left
exactly as the write left it. -/
theorem claim_C6_failed_build_preserves_metadata (nb : Notebook) (console : List String)
    (e : DockerBuildError) :
    (start_docker_section ⟨nb, console⟩ (.error e)).1.notebook = nb
    ∧ (start_docker_section ⟨nb, console⟩ (.error e)).2 = .error 1
    ∧ (start_docker_section ⟨nb, console⟩ (.error e)).1.console
      = console ++ handle_docker_build_failure true e
    ∧ get_notebook_metadata (start_docker_section ⟨nb, console⟩ (.error e)).1.notebook
      = get_notebook_metadata nb :=
  ⟨rfl, rfl, rfl, rfl⟩

/-- Claim C7: with one interactive interrupt arriving during the blocking
wait — delivered to the registered SIGINT handler on POSIX, or raised as
KeyboardInterrupt out of the wait call on Windows — the container's stop
operation is invoked exactly once and the launcher reaches its normal
terminal line, whether the subsequent wait returns or reports that the
container no longer exists. -/
theorem claim_C7_interrupt_stops_once (after : WaitAfterStop) :
    ((container_wait_block .posixSignal 1 after ⟨0, [], false⟩).stop_calls = 1
      ∧ (container_wait_block .posixSignal 1 after ⟨0, [], false⟩).normal_exit = true)
    ∧ ((container_wait_block .windowsKeyboardInterrupt 0 after ⟨0, [], false⟩).stop_calls = 1
      ∧ (container_wait_block .windowsKeyboardInterrupt 0 after ⟨0, [], false⟩).normal_exit = true) := by
  cases after <;> exact ⟨⟨rfl, rfl⟩, ⟨rfl, rfl⟩⟩

/-- Reading the lines of a character stream and concatenating them back
yields the stream: parsing loses nothing and keeps order. -/
theorem pyReadlinesAux_concat (cs : List Char) :
    ∀ acc, concatLines (pyReadlinesAux cs acc) = acc.reverse ++ cs := by
  induction cs with
  | nil =>
    intro acc
    by_cases h : acc.isEmpty
    · have he : acc = [] := List.isEmpty_iff.mp h
      simp [pyReadlinesAux, h, concatLines, he]
    · simp [pyReadlinesAux, h, concatLines]
  | cons c rest ih =>
    intro acc
    by_cases h : c = '\n'
    · subst h
      simp only [pyReadlinesAux, if_pos rfl, concatLines, List.foldr_cons]
      have := ih []
      simp only [concatLines] at this
      simp [this]
    · simp only [pyReadlinesAux, h, if_false]
      rw [ih (c :: acc)]
      simp

/-- Lines of a string concatenate back to the string's characters. -/
theorem pyReadlines_concat (s : String) : concatLines (pyReadlines s) = s.data := by
  simpa using pyReadlinesAux_concat s.data []

/-- Claim C8 (amended): for every pip requirements file (.txt), parsing
produces one ordered entry per line with the newline stripped, preserving
the original line order exactly; lines that are empty after stripping the
newline appear as (empty) entries of the result — they are not filtered.
The lines concatenate back to the exact file text, so order and content
are fully preserved. -/
theorem claim_C8_pip_line_parsing (p : PyPath) (text : String) (yl : String → PyJson)
    (h : p.suffix = ".txt") :
    read_requirements_data p text yl
      = ([], .ok (some ⟨"pip", .arr ((pyReadlines text).map (fun l => .str (stripNewlines l)))⟩))
    ∧ concatLines (pyReadlines text) = text.data := by
  constructor
  · simp [read_requirements_data, h]
  · exact pyReadlines_concat text

/-- Counterexample to claim C8 as stated: on the concrete file text
"scikit-learn==1.2.2\n\npandas\n" the middle line is empty after stripping
its newline, yet it DOES appear as an entry of the parsed result, refuting
"lines that are empty after stripping the newline do not appear as entries
in the result". -/
theorem claim_C8_pip_line_parsing_counterexample :
    read_requirements_data ⟨"requirements.txt"⟩ "scikit-learn==1.2.2\n\npandas\n" yamlNull
      = ([], .ok (some ⟨"pip", .arr [.str "scikit-learn==1.2.2", .str "", .str "pandas"]⟩))
    ∧ PyJson.str "" ∈ [PyJson.str "scikit-learn==1.2.2", PyJson.str "", PyJson.str "pandas"] :=
  ⟨rfl, List.Mem.tail _ (List.Mem.head _)⟩

/-- Witness for C8 at a concrete path and file text. -/
theorem claim_C8_pip_line_parsing_witness :
    PyPath.suffix ⟨"requirements.txt"⟩ = ".txt"
    ∧ (read_requirements_data ⟨"requirements.txt"⟩ "a\n\nb\n" yamlNull
        = ([], .ok (some ⟨"pip", .arr ((pyReadlines "a\n\nb\n").map (fun l => .str (stripNewlines l)))⟩))
      ∧ concatLines (pyReadlines "a\n\nb\n") = ("a\n\nb\n" : String).data) :=
  ⟨rfl, claim_C8_pip_line_parsing ⟨"requirements.txt"⟩ "a\n\nb\n" yamlNull rfl⟩

set_option maxRecDepth 8192 in
/-- Claim C9 (evaluating the code at the failing input): the
notebook_metadata.py reader rejects every requirements path whose extension
is not .txt/.yml/.yaml with an error message and no value; the metadata.py
reader instead, at the concrete unsupported path "reqs.json" with an
existing notebook, silently returns the requirements stored in the
notebook — a value from another source, with no error. -/
theorem claim_C9_unsupported_extension_divergence (p : PyPath) (text : String)
    (yl : String → PyJson)
    (h1 : p.suffix ≠ ".txt") (h2 : p.suffix ≠ ".yml") (h3 : p.suffix ≠ ".yaml") :
    read_requirements_data p text yl
      = (["Invalid requirements file format."], .ok none)
    ∧ m_read_requirements_data (some ⟨"reqs.json"⟩) "" yamlNull true c9_notebook
      = ([], .ok (some c9_stored_requirements)) := by
  constructor
  · have e1 : (p.suffix == ".txt") = false := beq_eq_false_iff_ne.mpr h1
    have e2 : (p.suffix == ".yml") = false := beq_eq_false_iff_ne.mpr h2
    have e3 : (p.suffix == ".yaml") = false := beq_eq_false_iff_ne.mpr h3
    simp [read_requirements_data, e1, e2, e3]
  · rfl

/-- Witness for C9 at the concrete unsupported path. -/
theorem claim_C9_unsupported_extension_divergence_witness :
    PyPath.suffix ⟨"reqs.json"⟩ = ".json"
    ∧ (read_requirements_data ⟨"reqs.json"⟩ "" yamlNull
        = (["Invalid requirements file format."], .ok none)
      ∧ m_read_requirements_data (some ⟨"reqs.json"⟩) "" yamlNull true c9_notebook
        = ([], .ok (some c9_stored_requirements))) :=
  ⟨rfl, claim_C9_unsupported_extension_divergence ⟨"reqs.json"⟩ "" yamlNull
    (by decide) (by decide) (by decide)⟩

/-- Claim C10: in the start flow's requirements reconciliation, whenever
the notebook file does not exist on disk the result is None — even when a
requirements path with a recognized extension was supplied — so
command-line requirements for a brand-new notebook are never read at that
point. -/
theorem claim_C10_new_notebook_requirements_none (requirements_path : Option PyPath)
    (reqFileText : String) (yaml_safe_load : String → PyJson)
    (notebook_requirements_from_metadata : Option PyJson) :
    app_read_requirements_data requirements_path reqFileText yaml_safe_load false
      notebook_requirements_from_metadata = none := rfl
